import Mathlib

/-!
Verification of the Resilient State & Remote-Data Cache subsystem of the
AMT-TECH-SIGN digital-signage application.

The development shallowly embeds the four claim-relevant modules:
* `src/lib/safeStorage.ts` — a key-value store with an in-memory fallback
  used when the persistent medium (`localStorage`) throws;
* `src/services/logService.ts` — the bounded system-log ring buffer;
* `src/services/storageService.ts` — configuration load (parse, validate,
  migrate, safe mode) and save (strip the volatile `isSafeMode` flag);
* the cached fetch service (`safeFetch`) — the TTL cache with the
  fresh-cache → network → stale-cache → fallback ladder.

Modelling conventions:
* Machine state that JavaScript keeps in objects (`localStorage`,
  `memoryStorage`) is explicit: association lists from string keys to
  values, passed and returned.
* A call into the persistent medium either succeeds or throws; each
  `safeStorage` operation takes a `fail : Bool` telling whether the medium
  throws on that call (the source catches the exception and falls back).
* JavaScript truthiness is modelled where the source relies on it:
  `memoryStorage[key] || null` returns `null` for the empty string, and
  `fallbackData || null` returns `null` for a falsy fallback, so those
  spots take the falsiness of the value into account explicitly.
* `JSON.stringify` followed by `JSON.parse` is the identity on plain data
  objects, so a stored blob is modelled structurally (inductive `Blob`)
  rather than as a character string; a blob that is not valid JSON is the
  constructor `Blob.malformed`, and the JSON value `null` is
  `Blob.nullBlob`.
-/

/-- Lookup in an association list, first binding wins (models reading a
property of a JavaScript object used as a string-keyed map). -/
def alookup {α : Type} : List (String × α) → String → Option α
  | [], _ => none
  | (k, v) :: rest, key => if k = key then some v else alookup rest key

/-- Insert or overwrite a binding (models `obj[key] = value`). -/
def ainsert {α : Type} : List (String × α) → String → α → List (String × α)
  | [], key, v => [(key, v)]
  | (k, w) :: rest, key, v =>
      if k = key then (key, v) :: rest else (k, w) :: ainsert rest key v

/-- Remove a binding (models `delete obj[key]` / `removeItem`). -/
def aerase {α : Type} : List (String × α) → String → List (String × α)
  | [], _ => []
  | (k, w) :: rest, key =>
      if k = key then rest else (k, w) :: aerase rest key

/-- The two storage planes of `safeStorage`: the persistent medium
(`localStorage`) and the in-process fallback map (`memoryStorage`). -/
structure StoreState where
  persistent : List (String × String)
  memory : List (String × String)
deriving Repr, DecidableEq

namespace SafeStorage

/-- `safeStorage.getItem`. When the persistent medium throws (`fail`),
the catch block evaluates `memoryStorage[key] || null`: a missing key or
an empty-string value both come out as `null`. -/
def getItem (fail : Bool) (st : StoreState) (key : String) : Option String :=
  if fail then
    match alookup st.memory key with
    | some v => if v = "" then none else some v
    | none => none
  else alookup st.persistent key

/-- `safeStorage.setItem`: write to the persistent medium, or to the
in-memory map when the medium throws. -/
def setItem (fail : Bool) (st : StoreState) (key value : String) : StoreState :=
  if fail then { st with memory := ainsert st.memory key value }
  else { st with persistent := ainsert st.persistent key value }

/-- `safeStorage.removeItem`: delete from the persistent medium, or from
the in-memory map when the medium throws. -/
def removeItem (fail : Bool) (st : StoreState) (key : String) : StoreState :=
  if fail then { st with memory := aerase st.memory key }
  else { st with persistent := aerase st.persistent key }

/-- `safeStorage.clear`: clear the persistent medium, or (when the medium
throws) delete every key of the in-memory map. -/
def clearStore (fail : Bool) (st : StoreState) : StoreState :=
  if fail then { st with memory := [] }
  else { st with persistent := [] }

end SafeStorage

/-! ## System log buffer (`src/services/logService.ts`) -/

/-- Log severity, the `level` union of `LogEntry`. -/
inductive LogLevel
  | info
  | warn
  | error
deriving Repr, DecidableEq

/-- The caller-supplied part of a log entry: `Omit<LogEntry, 'id' | 'timestamp'>`. -/
structure LogReq where
  level : LogLevel
  source : String
  message : String
  stack : Option String
deriving Repr, DecidableEq

/-- A stored system-log entry. -/
structure LogEntry where
  id : String
  timestamp : Int
  level : LogLevel
  source : String
  message : String
  stack : Option String
deriving Repr, DecidableEq

/-- `MAX_LOGS` for the system log. -/
def MAX_LOGS : Nat := 50

/-- `{...log, id, timestamp}`: attach the freshly generated id and the
current timestamp to the caller-supplied entry. -/
def mkLogEntry (id : String) (timestamp : Int) (req : LogReq) : LogEntry :=
  { id := id, timestamp := timestamp, level := req.level,
    source := req.source, message := req.message, stack := req.stack }

/-- `addLog` on the stored buffer: prepend the new entry and truncate to
`MAX_LOGS`. The fresh id (from `Math.random`) and the timestamp (from
`Date.now()`) are inputs of the model. -/
def addLog (id : String) (timestamp : Int) (req : LogReq)
    (logs : List LogEntry) : List LogEntry :=
  (mkLogEntry id timestamp req :: logs).take MAX_LOGS

/-! ## Data model (`src/types.ts`) -/

/-- `Theme`. -/
structure Theme where
  id : String
  name : String
  gradientStart : String
  gradientEnd : String
  accentColor : String
  textColor : String
  logoUrl : Option String
deriving Repr, DecidableEq

/-- The `'text' | 'image'` union of `Announcement.type`. -/
inductive AnnouncementType
  | text
  | image
deriving Repr, DecidableEq

/-- The `'low' | 'normal' | 'high'` union of `Announcement.priority`. -/
inductive Priority
  | low
  | normal
  | high
deriving Repr, DecidableEq

/-- `Announcement`. -/
structure Announcement where
  id : String
  type : AnnouncementType
  title : String
  content : String
  imageUrl : Option String
  active : Bool
  priority : Priority
deriving Repr, DecidableEq

/-- `CategoryDefinition`. -/
structure CategoryDefinition where
  id : String
  name : String
  icon : String
deriving Repr, DecidableEq

/-- `Event` (calendar event of the signage, not a DOM event). -/
structure Event where
  id : String
  title : String
  time : String
  location : String
  date : String
  category : String
deriving Repr, DecidableEq

/-- The `WidgetType` string union. -/
inductive WidgetType
  | clock
  | weather
  | announcements
  | events
  | nasa
  | quote
  | news
  | text
  | image
  | custom_api
deriving Repr, DecidableEq

/-- `WidgetConfig`. The `settings?: any` payload is untyped in the source
and is modelled opaquely by its serialized text. -/
structure WidgetConfig where
  id : String
  type : WidgetType
  title : Option String
  refreshSeconds : Int
  settings : Option String
deriving Repr, DecidableEq

/-- `GridItemConfig`. -/
structure GridItemConfig where
  i : String
  x : Int
  y : Int
  w : Int
  h : Int
deriving Repr, DecidableEq

/-- `CustomWidgetDefinition`. The source fields named by the reserved
words of Lean keep their meaning: `prefixText`/`suffixText` stand for the
optional text put before/after the fetched value. -/
structure CustomWidgetDefinition where
  id : String
  name : String
  endpoint : String
  jsonPath : String
  refreshSeconds : Int
  prefixText : Option String
  suffixText : Option String
deriving Repr, DecidableEq

/-- The `'standard' | 'grid'` union of `Page.type`. -/
inductive PageType
  | standard
  | grid
deriving Repr, DecidableEq

/-- `Page`. `widgets?: Record<string, WidgetConfig>` is a string-keyed
map, modelled as an association list. -/
structure Page where
  id : String
  title : String
  type : PageType
  content : Option String
  imageUrl : Option String
  layout : Option (List GridItemConfig)
  widgets : Option (List (String × WidgetConfig))
  duration : Option Int
  enabled : Option Bool
deriving Repr, DecidableEq

/-- `WeatherConfig`; latitude/longitude are decimal numbers. -/
structure WeatherConfig where
  city : String
  lat : Rat
  lon : Rat
deriving Repr, DecidableEq

/-- `Socials`. -/
structure Socials where
  phone : String
  website : String
  instagram : String
  twitter : String
deriving Repr, DecidableEq

/-- `EmergencyAlert`. -/
structure EmergencyAlert where
  active : Bool
  message : String
  timestamp : Int
  includeSiren : Bool
  audioData : Option String
deriving Repr, DecidableEq

/-- `AppData`, the canonical application configuration. `isSafeMode` is
optional in the interface (`isSafeMode?: boolean`). -/
structure AppData where
  schoolName : String
  theme : Theme
  announcements : List Announcement
  events : List Event
  eventCategories : List CategoryDefinition
  tickerItems : List String
  liveCamUrls : List String
  enableLiveCam : Bool
  pageDuration : Int
  pages : List Page
  socials : Socials
  emergency : EmergencyAlert
  weatherConfig : WeatherConfig
  customWidgets : List CustomWidgetDefinition
  isSafeMode : Option Bool
deriving Repr, DecidableEq

/-! ## Configuration persistence (`src/services/storageService.ts`) -/

/-- The shape of one page as it comes back from `JSON.parse`: the `type`
field may be absent (or falsy) in a legacy blob, every other field is as
in `Page`. -/
structure ParsedPage where
  id : String
  title : String
  type : Option PageType
  content : Option String
  imageUrl : Option String
  layout : Option (List GridItemConfig)
  widgets : Option (List (String × WidgetConfig))
  duration : Option Int
  enabled : Option Bool
deriving Repr, DecidableEq

/-- The parsed stored object before validation and migration: every key
may be absent. `none` on a field checked with JavaScript `!x` also covers
a present-but-falsy value. `liveCamUrl` is the legacy singular camera
field; `homeLayout`/`homeWidgets` are obsolete keys kept only as presence
markers, since `getStoredData` deletes them. -/
structure ParsedData where
  schoolName : Option String
  theme : Option Theme
  announcements : Option (List Announcement)
  events : Option (List Event)
  eventCategories : Option (List CategoryDefinition)
  tickerItems : Option (List String)
  liveCamUrls : Option (List String)
  liveCamUrl : Option String
  homeLayout : Option Unit
  homeWidgets : Option Unit
  enableLiveCam : Option Bool
  pageDuration : Option Int
  pages : Option (List ParsedPage)
  socials : Option Socials
  emergency : Option EmergencyAlert
  weatherConfig : Option WeatherConfig
  customWidgets : Option (List CustomWidgetDefinition)
  isSafeMode : Option Bool
deriving Repr, DecidableEq

/-- What `JSON.parse` can make of a stored string: a structured object, the
JSON value `null`, or a parse failure (`SyntaxError`). `JSON.stringify`
then `JSON.parse` being the identity on plain objects, the object case is
carried structurally. -/
inductive Blob
  | valid (p : ParsedData)
  | nullBlob
  | malformed
deriving Repr, DecidableEq

/-- Embed a `Page` into its parsed shape (`type` always present). -/
def toParsedPage (p : Page) : ParsedPage :=
  { id := p.id, title := p.title, type := some p.type, content := p.content,
    imageUrl := p.imageUrl, layout := p.layout, widgets := p.widgets,
    duration := p.duration, enabled := p.enabled }

/-- Embed an `AppData` into the parsed shape: every field of the interface
present, no legacy keys. This is the image of a well-typed configuration
under `JSON.stringify` + `JSON.parse`. -/
def toParsed (c : AppData) : ParsedData :=
  { schoolName := some c.schoolName, theme := some c.theme,
    announcements := some c.announcements, events := some c.events,
    eventCategories := some c.eventCategories,
    tickerItems := some c.tickerItems, liveCamUrls := some c.liveCamUrls,
    liveCamUrl := none, homeLayout := none, homeWidgets := none,
    enableLiveCam := some c.enableLiveCam,
    pageDuration := some c.pageDuration,
    pages := some (c.pages.map toParsedPage), socials := some c.socials,
    emergency := some c.emergency, weatherConfig := some c.weatherConfig,
    customWidgets := some c.customWidgets, isSafeMode := c.isSafeMode }

/-- `DEFAULT_DATA`, the hardcoded factory default. The three default
events carry `new Date().toISOString()`; the ISO string of the moment the
module loads is the parameter `nowISO`. -/
def DEFAULT_DATA (nowISO : String) : AppData :=
  { schoolName := "Nova Academy",
    theme := { id := "default", name := "Midnight Blue",
               gradientStart := "#000000", gradientEnd := "#1e1b4b",
               accentColor := "#3b82f6", textColor := "#ffffff",
               logoUrl := some "" },
    announcements := [
      { id := "1", type := AnnouncementType.text,
        title := "Science Fair Registration",
        content := "Registration for the annual Science Fair closes this Friday. Please visit the main office to sign up your team!",
        imageUrl := none, active := true, priority := Priority.high },
      { id := "2", type := AnnouncementType.image,
        title := "Student Art Showcase",
        content := "Join us in the main hall.",
        imageUrl := some "https://images.unsplash.com/photo-1544531586-fde5298cdd40?q=80&w=2070&auto=format&fit=crop",
        active := true, priority := Priority.normal }],
    events := [
      { id := "1", title := "Parent Teacher Conf", time := "16:00",
        location := "Auditorium", date := nowISO, category := "Academic" },
      { id := "2", title := "Basketball Finals", time := "15:30",
        location := "Gym", date := nowISO, category := "Sports" },
      { id := "3", title := "Jazz Band", time := "12:00",
        location := "Music Room", date := nowISO, category := "Arts" }],
    eventCategories := [
      { id := "cat-1", name := "Academic", icon := "BookOpen" },
      { id := "cat-2", name := "Sports", icon := "Trophy" },
      { id := "cat-3", name := "Arts", icon := "Palette" },
      { id := "cat-4", name := "General", icon := "Users" }],
    tickerItems := [
      "REMINDER: Early dismissal this Friday at 1:00 PM.",
      "Report cards will be distributed next Monday.",
      "Yearbook sales end on May 30th!"],
    liveCamUrls := [
      "https://webcams.nyctmc.org/api/cameras/4c47eda8-a4a1-4e40-baea-578e0a99e1d8/image",
      "https://webcams.nyctmc.org/api/cameras/9ca4e591-4ac8-471c-8e76-4710b52e6f9b/image",
      "https://webcams.nyctmc.org/api/cameras/a01a8c98-d314-4eb4-bd7c-4a4f80d71c4b/image"],
    enableLiveCam := true,
    pageDuration := 60,
    pages := [
      { id := "default-page", title := "Core Values",
        type := PageType.standard,
        content := some "## Our Mission\n\n* **Excellence**: We strive for the highest quality in everything we do.\n* **Integrity**: We act with honesty and strong moral principles.\n* **Community**: We foster a supportive and inclusive environment.\n\nVisit our website **www.novaacademy.edu** for more information.",
        imageUrl := some "https://images.unsplash.com/photo-1513364776144-60967b0f800f?q=80&w=2071&auto=format&fit=crop",
        layout := none, widgets := none, duration := none,
        enabled := none }],
    socials := { phone := "(555) 123-4567", website := "novaacademy.edu",
                 instagram := "@NovaAcademy", twitter := "@NovaTweets" },
    emergency := { active := false,
                   message := "EMERGENCY ALERT: PLEASE PROCEED TO THE NEAREST EXIT CALMLY.",
                   timestamp := 0, includeSiren := false,
                   audioData := none },
    weatherConfig := { city := "Far Rockaway", lat := (40609 : Rat) / 1000,
                       lon := (-73763 : Rat) / 1000 },
    customWidgets := [],
    isSafeMode := some false }

/-- The throwing part of `getStoredData` (lines 97–102): `JSON.parse` and
the safety check for critical properties. A `SyntaxError` of the parser, a
`TypeError` from reading `.pages` off the JSON value `null`, and the
explicit `throw new Error(...)` all land in the same catch block; the
error is carried as its message text. The check uses JavaScript
truthiness: an absent or empty `schoolName` and an absent (or falsy)
`pages`/`theme` all fail it. -/
def parseAndValidate : Blob → Except String ParsedData
  | Blob.malformed => Except.error "Unexpected token in JSON"
  | Blob.nullBlob => Except.error "Cannot read properties of null"
  | Blob.valid p =>
      if p.pages.isSome && p.theme.isSome && !(p.schoolName.getD "" == "")
      then Except.ok p
      else Except.error "Configuration structure is incomplete or corrupted."

/-- The migration block of `getStoredData` (lines 104–141), written as one
simultaneous record update: the source's steps are sequential field
patches on `parsed`, but no step reads a field written by another, except
that the legacy `liveCamUrl` is read before being deleted, which the
nested match preserves. `enableLiveCam`/`pageDuration`/`socials`/
`emergency`/`weatherConfig` are tested with `=== undefined`, the rest
with `!x` truthiness; both map to `Option.getD` here. -/
def migrate (nowISO : String) (p : ParsedData) : ParsedData :=
  { schoolName := p.schoolName,
    theme := some (p.theme.getD (DEFAULT_DATA nowISO).theme),
    announcements := p.announcements,
    events := p.events,
    eventCategories :=
      some (p.eventCategories.getD (DEFAULT_DATA nowISO).eventCategories),
    tickerItems := some (p.tickerItems.getD (DEFAULT_DATA nowISO).tickerItems),
    liveCamUrls := some (match p.liveCamUrls with
      | some us => us
      | none => match p.liveCamUrl with
        | some u => [u]
        | none => (DEFAULT_DATA nowISO).liveCamUrls),
    liveCamUrl := none,
    homeLayout := none,
    homeWidgets := none,
    enableLiveCam := some (p.enableLiveCam.getD false),
    pageDuration := some (p.pageDuration.getD 60),
    pages := some (match p.pages with
      | none => (DEFAULT_DATA nowISO).pages.map toParsedPage
      | some ps =>
          ps.map (fun pg => { pg with
            type := some (pg.type.getD PageType.standard) })),
    socials := some (p.socials.getD (DEFAULT_DATA nowISO).socials),
    emergency := some (p.emergency.getD (DEFAULT_DATA nowISO).emergency),
    weatherConfig :=
      some (p.weatherConfig.getD (DEFAULT_DATA nowISO).weatherConfig),
    customWidgets :=
      some (p.customWidgets.getD (DEFAULT_DATA nowISO).customWidgets),
    isSafeMode := p.isSafeMode }

/-- The log record `getStoredData` hands to `addLog` in its catch block. -/
def loadFailureLog (msg : String) : LogReq :=
  { level := LogLevel.error, source := "StorageService",
    message := "Failed to load data: " ++ msg ++ ". System recovered with defaults.",
    stack := none }

/-- `getStoredData`, over the value stored under `STORAGE_KEY` (`none` =
key absent; the persistent medium is taken as readable here, its failure
modes being the subject of the `SafeStorage` section). Returns the loaded
configuration in parsed shape — the source returns the mutated parsed
object itself — together with the trace of `addLog` calls made. -/
def getStoredData (nowISO : String) (stored : Option Blob) :
    ParsedData × List LogReq :=
  match stored with
  | none => (toParsed (DEFAULT_DATA nowISO), [])
  | some blob =>
      match parseAndValidate blob with
      | Except.ok p =>
          ({ migrate nowISO p with isSafeMode := some false }, [])
      | Except.error msg =>
          (toParsed { DEFAULT_DATA nowISO with isSafeMode := some true },
           [loadFailureLog msg])

/-- `saveStoredData`: destructure `isSafeMode` away, serialize the rest,
and write it under `STORAGE_KEY`. The result is the new stored blob. (The
`hardy-storage-update` broadcast carries no data and is not modelled.) -/
def saveStoredData (c : AppData) : Option Blob :=
  some (Blob.valid (toParsed { c with isSafeMode := none }))

/-! ## Cached fetch service (`safeFetch`) -/

/-- A stored cache value as `safeFetch` sees it after `getItem` +
`JSON.parse`: a `CacheEntry<T>` (`{ data, timestamp }`), or a string that
fails to parse (`malformed`, also covering the falsy empty string, which
the `if (cachedStr)` test skips). `none` in the store means no entry. -/
inductive CacheBlob (T : Type)
  | entry (data : T) (timestamp : Int)
  | malformed
deriving Repr, DecidableEq

/-- The outcome of the `fetch(url)` / `res.json()` sequence: a parsed
body, or one of the failure modes, every one of which throws into the
catch block of step 4. -/
inductive NetOutcome (T : Type)
  | ok (data : T)
  | httpError (status : Nat)
  | netError
  | timeout
  | parseError
deriving Repr, DecidableEq

/-- Whether the network step succeeded. -/
def NetOutcome.isOk {T : Type} : NetOutcome T → Bool
  | NetOutcome.ok _ => true
  | _ => false

/-- `safeFetch<T>(key, url, ttlSeconds, fallbackData?)`.

Inputs beyond the source's parameters: the cache plane of the store
(string keys to cache blobs, the persistent medium taken as readable),
`now = Date.now()`, the outcome of the bounded network call, and `falsy`,
the JavaScript truthiness of values of `T`, needed for the final
`return fallbackData || null` (an absent fallback is `none`).

Output: the returned value (`none` = `null`), the store after the
best-effort cache write of step 3, and whether a network request was
issued at all. -/
def safeFetch {T : Type} (falsy : T → Bool)
    (cache : List (String × CacheBlob T)) (key : String)
    (now ttlSeconds : Int) (net : NetOutcome T) (fallbackData : Option T) :
    Option T × List (String × CacheBlob T) × Bool :=
  let cacheKey := "hardy_cache_" ++ key
  -- 1. Try the stored cache; a parse error is caught and falls through.
  match alookup cache cacheKey with
  | some (CacheBlob.entry d ts) =>
      if now - ts < ttlSeconds * 1000 then
        -- Cache hit and valid: no network call.
        (some d, cache, false)
      else safeFetchNet falsy cache cacheKey net fallbackData now
  | some CacheBlob.malformed => safeFetchNet falsy cache cacheKey net fallbackData now
  | none => safeFetchNet falsy cache cacheKey net fallbackData now
where
  /-- Steps 2–5: the network attempt and its catch block. -/
  safeFetchNet (falsy : T → Bool) (cache : List (String × CacheBlob T))
      (cacheKey : String) (net : NetOutcome T) (fallbackData : Option T)
      (now : Int) : Option T × List (String × CacheBlob T) × Bool :=
    match net with
    | NetOutcome.ok data =>
        -- 3. Save to cache (best-effort) and return the parsed body.
        (some data, ainsert cache cacheKey (CacheBlob.entry data now), true)
    | _ =>
        -- 4. Any failure: return a stored entry regardless of freshness…
        match alookup cache cacheKey with
        | some (CacheBlob.entry d _) => (some d, cache, true)
        | _ =>
            -- 5. …else `fallbackData || null`.
            (match fallbackData with
             | some f => if falsy f then none else some f
             | none => none, cache, true)

/-- The three malformed-blob shapes of the spec's round-trip property:
unparsable JSON, the JSON value `null`, and a parsed object with no
`pages` key. -/
def malformedBlob (b : Option Blob) : Prop :=
  b = some Blob.malformed ∨ b = some Blob.nullBlob ∨
    ∃ p, b = some (Blob.valid p) ∧ p.pages = none

/-! ## Supporting lemmas -/

@[simp] theorem alookup_ainsert_self {α : Type} (l : List (String × α))
    (key : String) (v : α) : alookup (ainsert l key v) key = some v := by
  induction l with
  | nil => simp [ainsert, alookup]
  | cons hd tl ih =>
      obtain ⟨k, w⟩ := hd
      by_cases h : k = key <;> simp [ainsert, alookup, h, ih]

/-- The per-page normalization of the migration block is the identity on
pages that already carry a `type`. -/
theorem migrate_pages_id (ps : List Page) :
    (ps.map toParsedPage).map
      (fun pg => { pg with type := some (pg.type.getD PageType.standard) }) =
    ps.map toParsedPage := by
  induction ps with
  | nil => rfl
  | cons p ps ih => simp [toParsedPage, ih]

/-! ## Claim C4 — memory fallback under a failing persistent medium -/

/-- C4, counterexample: the claim quantifies over every string value, but
for the empty string the fallback read `memoryStorage[key] || null`
returns `null`: with the medium throwing on every call, `set("k", "")`
followed by `get("k")` yields `null`, not `""`. -/
theorem c4_empty_value_counterexample :
    SafeStorage.getItem true
      (SafeStorage.setItem true { persistent := [], memory := [] } "k" "") "k"
      = none ∧
    SafeStorage.getItem true
      (SafeStorage.setItem true { persistent := [], memory := [] } "k" "") "k"
      ≠ some "" := by
  constructor <;> decide

/-- C4 (amended): when the persistent medium throws on every read and
write and holds no data (it was never writable), `set(k, v)` followed by
`get(k)` returns `v` for every nonempty `v`, served from the in-memory
fallback map, and `clear()` leaves both the persistent and the in-memory
plane empty. -/
theorem c4_memory_fallback (st : StoreState) (k v : String)
    (hp : st.persistent = []) (hv : v ≠ "") :
    SafeStorage.getItem true (SafeStorage.setItem true st k v) k = some v ∧
    SafeStorage.clearStore true (SafeStorage.setItem true st k v) =
      { persistent := [], memory := [] } := by
  constructor
  · simp [SafeStorage.getItem, SafeStorage.setItem, hv]
  · simp [SafeStorage.clearStore, SafeStorage.setItem, hp]

/-- C4 witness: the amended statement at `k = "k"`, `v = "x"`, empty
initial state. -/
theorem c4_memory_fallback_witness :
    (({ persistent := [], memory := [] } : StoreState).persistent = [] ∧
     ("x" : String) ≠ "") ∧
    (SafeStorage.getItem true
       (SafeStorage.setItem true { persistent := [], memory := [] } "k" "x") "k"
       = some "x" ∧
     SafeStorage.clearStore true
       (SafeStorage.setItem true { persistent := [], memory := [] } "k" "x") =
       { persistent := [], memory := [] }) :=
  ⟨⟨rfl, by decide⟩,
   c4_memory_fallback { persistent := [], memory := [] } "k" "x" rfl (by decide)⟩

/-! ## Claim C10 — remove/clear touch the fallback map only on failure -/

/-- C10: `removeItem` and `clearStore` leave the in-memory fallback map
untouched when the persistent operation succeeds; consequently a value
that went to the fallback map during an earlier failed write is still
served by a later `get` whose persistent read fails, even after a
successful `remove(k)` in between. -/
theorem c10_fallback_retention (st : StoreState) (k v : String)
    (hv : v ≠ "") :
    (∀ (st2 : StoreState) (k2 : String),
        (SafeStorage.removeItem false st2 k2).memory = st2.memory) ∧
    (∀ st2 : StoreState, (SafeStorage.clearStore false st2).memory = st2.memory) ∧
    SafeStorage.getItem true
      (SafeStorage.removeItem false (SafeStorage.setItem true st k v) k) k
      = some v := by
  refine ⟨fun st2 k2 => rfl, fun st2 => rfl, ?_⟩
  simp [SafeStorage.getItem, SafeStorage.removeItem, SafeStorage.setItem, hv]

/-- C10 witness: the retention scenario at `k = "k"`, `v = "x"`. -/
theorem c10_fallback_retention_witness :
    ("x" : String) ≠ "" ∧
    ((∀ (st2 : StoreState) (k2 : String),
        (SafeStorage.removeItem false st2 k2).memory = st2.memory) ∧
     (∀ st2 : StoreState, (SafeStorage.clearStore false st2).memory = st2.memory) ∧
     SafeStorage.getItem true
       (SafeStorage.removeItem false
         (SafeStorage.setItem true { persistent := [], memory := [] } "k" "x") "k") "k"
       = some "x") :=
  ⟨by decide, c10_fallback_retention { persistent := [], memory := [] } "k" "x" (by decide)⟩

/-! ## Claim C7 — fresh cache hit, no network call -/

/-- C7: a stored entry satisfying `now - timestamp < ttlSeconds * 1000` is
returned as-is — the store is unchanged and no network request is issued,
whatever the network would have answered. -/
theorem c7_fresh_hit_no_network {T : Type} (falsy : T → Bool)
    (cache : List (String × CacheBlob T)) (key : String) (now ttl : Int)
    (net : NetOutcome T) (fb : Option T) (d : T) (ts : Int)
    (hc : alookup cache ("hardy_cache_" ++ key) = some (CacheBlob.entry d ts))
    (hfresh : now - ts < ttl * 1000) :
    safeFetch falsy cache key now ttl net fb = (some d, cache, false) := by
  simp [safeFetch, hc, hfresh]

/-- C7 witness: `ttlSeconds = 300`, an entry written 100 seconds ago
(timestamps in epoch millis), over `T = Int`. -/
theorem c7_fresh_hit_no_network_witness :
    alookup [("hardy_cache_weather", CacheBlob.entry (7 : Int) 0)]
        ("hardy_cache_" ++ "weather") = some (CacheBlob.entry (7 : Int) 0) ∧
    ((100000 : Int) - 0 < 300 * 1000) ∧
    safeFetch (fun n : Int => n == 0)
        [("hardy_cache_weather", CacheBlob.entry (7 : Int) 0)] "weather"
        100000 300 (NetOutcome.httpError 500) (some 42) =
      (some 7, [("hardy_cache_weather", CacheBlob.entry (7 : Int) 0)], false) :=
  ⟨by decide, by decide,
   c7_fresh_hit_no_network (fun n : Int => n == 0)
     [("hardy_cache_weather", CacheBlob.entry (7 : Int) 0)] "weather"
     100000 300 (NetOutcome.httpError 500) (some 42) 7 0
     (by decide) (by decide)⟩

/-! ## Claim C5 — stale entry served when the network fails -/

/-- C5: with a stored entry past its TTL and a failing network call (HTTP
error, network error, timeout, or body-parse error), `safeFetch` returns
the stale entry's data — not the caller-supplied fallback. -/
theorem c5_stale_served_on_failure {T : Type} (falsy : T → Bool)
    (cache : List (String × CacheBlob T)) (key : String) (now ttl : Int)
    (net : NetOutcome T) (fb : Option T) (d : T) (ts : Int)
    (hc : alookup cache ("hardy_cache_" ++ key) = some (CacheBlob.entry d ts))
    (hstale : ¬ now - ts < ttl * 1000)
    (hnet : net.isOk = false) :
    (safeFetch falsy cache key now ttl net fb).1 = some d := by
  cases net <;>
    simp_all [safeFetch, safeFetch.safeFetchNet, NetOutcome.isOk, hc, hstale] <;>
    split <;> rfl

/-- C5 witness: an entry expired under `ttlSeconds = 300`, network
answering HTTP 500, a distinct fallback supplied — the stale `7` is
returned. -/
theorem c5_stale_served_on_failure_witness :
    alookup [("hardy_cache_news", CacheBlob.entry (7 : Int) 0)]
        ("hardy_cache_" ++ "news") = some (CacheBlob.entry (7 : Int) 0) ∧
    (¬ (1000000 : Int) - 0 < 300 * 1000) ∧
    (NetOutcome.httpError (T := Int) 500).isOk = false ∧
    (safeFetch (fun n : Int => n == 0)
        [("hardy_cache_news", CacheBlob.entry (7 : Int) 0)] "news"
        1000000 300 (NetOutcome.httpError 500) (some 42)).1 = some 7 :=
  ⟨by decide, by decide, by decide,
   c5_stale_served_on_failure (fun n : Int => n == 0)
     [("hardy_cache_news", CacheBlob.entry (7 : Int) 0)] "news"
     1000000 300 (NetOutcome.httpError 500) (some 42) 7 0
     (by decide) (by decide) (by decide)⟩

/-! ## Claim C6 — fallback on cache miss and network failure -/

/-- C6, counterexample: the last rung is `return fallbackData || null`,
so a falsy caller-supplied fallback is not returned. Over numbers, with
no cache entry for the key and a failing network call, the supplied
fallback `0` comes back as `null` rather than `0`. -/
theorem c6_falsy_fallback_counterexample :
    (safeFetch (fun n : Int => n == 0) [] "k" 0 300 NetOutcome.netError
      (some 0)).1 = none ∧
    (safeFetch (fun n : Int => n == 0) [] "k" 0 300 NetOutcome.netError
      (some 0)).1 ≠ some 0 := by
  constructor <;> decide

/-- C6 (amended): with no stored cache entry for the key and a failing
network call, `safeFetch` returns the caller-supplied fallback when that
value is truthy; when the fallback is falsy or none was supplied, it
returns `null` (the source's `fallbackData || null`). -/
theorem c6_fallback_on_miss {T : Type} (falsy : T → Bool)
    (cache : List (String × CacheBlob T)) (key : String) (now ttl : Int)
    (net : NetOutcome T) (fb : Option T)
    (hc : alookup cache ("hardy_cache_" ++ key) = none)
    (hnet : net.isOk = false) :
    (∀ f, fb = some f → falsy f = false →
        (safeFetch falsy cache key now ttl net fb).1 = some f) ∧
    (∀ f, fb = some f → falsy f = true →
        (safeFetch falsy cache key now ttl net fb).1 = none) ∧
    (fb = none → (safeFetch falsy cache key now ttl net fb).1 = none) := by
  refine ⟨?_, ?_, ?_⟩ <;>
    cases net <;>
    simp_all [safeFetch, safeFetch.safeFetchNet, NetOutcome.isOk, hc]

/-- C6 witness: empty cache, network error, truthy fallback `42` over
`T = Int` — the fallback is returned. -/
theorem c6_fallback_on_miss_witness :
    alookup ([] : List (String × CacheBlob Int)) ("hardy_cache_" ++ "k") = none ∧
    (NetOutcome.netError (T := Int)).isOk = false ∧
    ((42 : Int) == 0) = false ∧
    (safeFetch (fun n : Int => n == 0) [] "k" 0 300 NetOutcome.netError
      (some 42)).1 = some 42 :=
  ⟨by decide, by decide, by decide,
   (c6_fallback_on_miss (fun n : Int => n == 0) [] "k" 0 300
      NetOutcome.netError (some 42) (by decide) (by decide)).1
     42 rfl (by decide)⟩

/-! ## Claim C8 — bounded, newest-first system log -/

/-- Truncating an already-truncated suffix changes nothing under the same
bound. -/
theorem take_append_take {α : Type} (A l : List α) (n : Nat) :
    (A ++ l.take n).take n = (A ++ l).take n := by
  rw [List.take_append_eq_append_take, List.take_append_eq_append_take,
    List.take_take, Nat.min_eq_left (Nat.sub_le n A.length)]

/-- Folding `addLog` over a batch of appends, starting from any buffer
already within the bound, keeps the newest `MAX_LOGS` entries,
newest-first. -/
theorem addLog_foldl (es : List (String × Int × LogReq))
    (acc : List LogEntry) (hacc : acc.length ≤ MAX_LOGS) :
    es.foldl (fun logs e => addLog e.1 e.2.1 e.2.2 logs) acc =
      ((es.reverse.map fun e => mkLogEntry e.1 e.2.1 e.2.2) ++ acc).take
        MAX_LOGS := by
  induction es generalizing acc with
  | nil => simp [List.take_of_length_le hacc]
  | cons e es ih =>
      have hlen : (addLog e.1 e.2.1 e.2.2 acc).length ≤ MAX_LOGS := by
        simp [addLog, List.length_take]
      calc (e :: es).foldl (fun logs e => addLog e.1 e.2.1 e.2.2 logs) acc
          = es.foldl (fun logs e => addLog e.1 e.2.1 e.2.2 logs)
              (addLog e.1 e.2.1 e.2.2 acc) := rfl
        _ = ((es.reverse.map fun e => mkLogEntry e.1 e.2.1 e.2.2) ++
              (mkLogEntry e.1 e.2.1 e.2.2 :: acc).take MAX_LOGS).take
              MAX_LOGS := ih _ hlen
        _ = (((e :: es).reverse.map fun e => mkLogEntry e.1 e.2.1 e.2.2) ++
              acc).take MAX_LOGS := by
            rw [take_append_take]
            simp

/-- C8: each append prepends the freshly-stamped entry and truncates to
`MAX_LOGS = 50`, so the buffer never exceeds 50 entries; appending any 60
entries to the empty system log leaves exactly 50, namely all but the 10
oldest, in newest-first order. -/
theorem c8_log_bounded_newest_first (es : List (String × Int × LogReq))
    (h : es.length = 60) :
    (∀ (id : String) (ts : Int) (r : LogReq) (logs : List LogEntry),
        (addLog id ts r logs).length ≤ MAX_LOGS) ∧
    (∀ (id : String) (ts : Int) (r : LogReq) (logs : List LogEntry),
        addLog id ts r logs = (mkLogEntry id ts r :: logs).take MAX_LOGS) ∧
    (es.foldl (fun logs e => addLog e.1 e.2.1 e.2.2 logs) []).length =
      MAX_LOGS ∧
    es.foldl (fun logs e => addLog e.1 e.2.1 e.2.2 logs) [] =
      ((es.drop 10).map fun e => mkLogEntry e.1 e.2.1 e.2.2).reverse := by
  have hfold := addLog_foldl es [] (by simp [MAX_LOGS])
  simp only [List.append_nil] at hfold
  refine ⟨fun id ts r logs => by simp [addLog, List.length_take],
    fun id ts r logs => rfl, ?_, ?_⟩
  · rw [hfold]
    simp [List.length_take, h, MAX_LOGS]
  · rw [hfold, List.map_reverse, List.map_drop, List.reverse_drop]
    simp [h, MAX_LOGS]

/-- C8 witness: a concrete batch of 60 appends (ids "0"…"59",
timestamps 0…59). -/
theorem c8_log_bounded_newest_first_witness :
    ((List.range 60).map fun i =>
        (toString i, Int.ofNat i,
         ({ level := LogLevel.info, source := "s", message := "m",
            stack := none } : LogReq))).length = 60 ∧
    ((∀ (id : String) (ts : Int) (r : LogReq) (logs : List LogEntry),
        (addLog id ts r logs).length ≤ MAX_LOGS) ∧
     (∀ (id : String) (ts : Int) (r : LogReq) (logs : List LogEntry),
        addLog id ts r logs = (mkLogEntry id ts r :: logs).take MAX_LOGS) ∧
     (((List.range 60).map fun i =>
          (toString i, Int.ofNat i,
           ({ level := LogLevel.info, source := "s", message := "m",
              stack := none } : LogReq))).foldl
        (fun logs e => addLog e.1 e.2.1 e.2.2 logs) []).length = MAX_LOGS ∧
     ((List.range 60).map fun i =>
          (toString i, Int.ofNat i,
           ({ level := LogLevel.info, source := "s", message := "m",
              stack := none } : LogReq))).foldl
        (fun logs e => addLog e.1 e.2.1 e.2.2 logs) [] =
      ((((List.range 60).map fun i =>
           (toString i, Int.ofNat i,
            ({ level := LogLevel.info, source := "s", message := "m",
               stack := none } : LogReq))).drop 10).map fun e =>
          mkLogEntry e.1 e.2.1 e.2.2).reverse) :=
  ⟨by rw [List.length_map, List.length_range],
   c8_log_bounded_newest_first _ (by rw [List.length_map, List.length_range])⟩

/-! ## Claim C1 — save/load round trip -/

/-- C1: for a valid configuration (the structural check of the loader
requires a truthy `schoolName`; `pages` and `theme` are always present on
a well-typed value), loading right after saving returns the same
configuration except that the volatile `isSafeMode` is forced to `false`,
and no log entry is produced. -/
theorem c1_load_after_save_roundtrip (nowISO : String) (c : AppData)
    (h : c.schoolName ≠ "") :
    getStoredData nowISO (saveStoredData c) =
      (toParsed { c with isSafeMode := some false }, []) := by
  simp [getStoredData, saveStoredData, parseAndValidate, migrate, toParsed,
    h, migrate_pages_id]
  intro a _
  simp [toParsedPage]

/-- C1 witness: the round trip at the factory-default configuration. -/
theorem c1_load_after_save_roundtrip_witness :
    (DEFAULT_DATA "2026-01-01T00:00:00.000Z").schoolName ≠ "" ∧
    getStoredData "2026-01-01T00:00:00.000Z"
        (saveStoredData (DEFAULT_DATA "2026-01-01T00:00:00.000Z")) =
      (toParsed { DEFAULT_DATA "2026-01-01T00:00:00.000Z" with
                    isSafeMode := some false }, []) :=
  ⟨by decide, c1_load_after_save_roundtrip _ _ (by decide)⟩

/-! ## Claim C2 — malformed blobs: safe-mode default plus one log entry -/

/-- C2: for each malformed stored blob (no `pages` key, unparsable JSON,
or the JSON value `null`), loading returns the hardcoded default
configuration flagged `isSafeMode = true` and emits exactly one log
append. -/
theorem c2_malformed_blob_safe_mode (nowISO : String) (b : Option Blob)
    (hb : malformedBlob b) :
    (getStoredData nowISO b).1 =
      toParsed { DEFAULT_DATA nowISO with isSafeMode := some true } ∧
    (getStoredData nowISO b).2.length = 1 := by
  rcases hb with h | h | ⟨p, h, hp⟩
  · subst h; simp [getStoredData, parseAndValidate]
  · subst h; simp [getStoredData, parseAndValidate]
  · subst h; simp [getStoredData, parseAndValidate, hp]

/-- C2 witness: the unparsable-JSON blob. -/
theorem c2_malformed_blob_safe_mode_witness :
    malformedBlob (some Blob.malformed) ∧
    ((getStoredData "2026-01-01T00:00:00.000Z" (some Blob.malformed)).1 =
       toParsed { DEFAULT_DATA "2026-01-01T00:00:00.000Z" with
                    isSafeMode := some true } ∧
     (getStoredData "2026-01-01T00:00:00.000Z" (some Blob.malformed)).2.length
       = 1) :=
  ⟨Or.inl rfl, c2_malformed_blob_safe_mode _ _ (Or.inl rfl)⟩

/-! ## Claim C9 — empty `pages` array valid, absent `pages` key corrupt -/

/-- C9: a stored blob whose `pages` is a present-but-empty array passes
the structural check (provided `theme` and a truthy `schoolName` are also
there): it loads with `isSafeMode = false`, its `pages` stay the empty
array (no default substitution), and nothing is logged. A blob with no
`pages` key at all instead takes the corruption path: safe-mode default
and one log entry. -/
theorem c9_empty_pages_asymmetry (nowISO : String) (p q : ParsedData)
    (hp : p.pages = some []) (hpt : p.theme.isSome = true)
    (hps : ¬ p.schoolName.getD "" = "")
    (hq : q.pages = none) :
    ((getStoredData nowISO (some (Blob.valid p))).1.pages = some [] ∧
     (getStoredData nowISO (some (Blob.valid p))).1.isSafeMode = some false ∧
     (getStoredData nowISO (some (Blob.valid p))).2 = []) ∧
    ((getStoredData nowISO (some (Blob.valid q))).1 =
        toParsed { DEFAULT_DATA nowISO with isSafeMode := some true } ∧
     (getStoredData nowISO (some (Blob.valid q))).2.length = 1) := by
  constructor
  · simp [getStoredData, parseAndValidate, hp, hpt, hps, migrate]
  · simp [getStoredData, parseAndValidate, hq]

/-- C9 witness: a minimal valid blob with `pages = []`, and the same blob
with the `pages` key removed. -/
theorem c9_empty_pages_asymmetry_witness :
    (({ schoolName := some "Nova", theme := some { id := "t", name := "t", gradientStart := "", gradientEnd := "", accentColor := "", textColor := "", logoUrl := none }, announcements := none, events := none, eventCategories := none, tickerItems := none, liveCamUrls := none, liveCamUrl := none, homeLayout := none, homeWidgets := none, enableLiveCam := none, pageDuration := none, pages := some [], socials := none, emergency := none, weatherConfig := none, customWidgets := none, isSafeMode := none } : ParsedData).pages = some [] ∧
     ({ schoolName := some "Nova", theme := some { id := "t", name := "t", gradientStart := "", gradientEnd := "", accentColor := "", textColor := "", logoUrl := none }, announcements := none, events := none, eventCategories := none, tickerItems := none, liveCamUrls := none, liveCamUrl := none, homeLayout := none, homeWidgets := none, enableLiveCam := none, pageDuration := none, pages := some [], socials := none, emergency := none, weatherConfig := none, customWidgets := none, isSafeMode := none } : ParsedData).theme.isSome = true ∧
     ¬ ({ schoolName := some "Nova", theme := some { id := "t", name := "t", gradientStart := "", gradientEnd := "", accentColor := "", textColor := "", logoUrl := none }, announcements := none, events := none, eventCategories := none, tickerItems := none, liveCamUrls := none, liveCamUrl := none, homeLayout := none, homeWidgets := none, enableLiveCam := none, pageDuration := none, pages := some [], socials := none, emergency := none, weatherConfig := none, customWidgets := none, isSafeMode := none } : ParsedData).schoolName.getD "" = "" ∧
     ({ schoolName := some "Nova", theme := some { id := "t", name := "t", gradientStart := "", gradientEnd := "", accentColor := "", textColor := "", logoUrl := none }, announcements := none, events := none, eventCategories := none, tickerItems := none, liveCamUrls := none, liveCamUrl := none, homeLayout := none, homeWidgets := none, enableLiveCam := none, pageDuration := none, pages := none, socials := none, emergency := none, weatherConfig := none, customWidgets := none, isSafeMode := none } : ParsedData).pages = none) ∧
    (((getStoredData "2026-01-01T00:00:00.000Z" (some (Blob.valid { schoolName := some "Nova", theme := some { id := "t", name := "t", gradientStart := "", gradientEnd := "", accentColor := "", textColor := "", logoUrl := none }, announcements := none, events := none, eventCategories := none, tickerItems := none, liveCamUrls := none, liveCamUrl := none, homeLayout := none, homeWidgets := none, enableLiveCam := none, pageDuration := none, pages := some [], socials := none, emergency := none, weatherConfig := none, customWidgets := none, isSafeMode := none }))).1.pages = some [] ∧
      (getStoredData "2026-01-01T00:00:00.000Z" (some (Blob.valid { schoolName := some "Nova", theme := some { id := "t", name := "t", gradientStart := "", gradientEnd := "", accentColor := "", textColor := "", logoUrl := none }, announcements := none, events := none, eventCategories := none, tickerItems := none, liveCamUrls := none, liveCamUrl := none, homeLayout := none, homeWidgets := none, enableLiveCam := none, pageDuration := none, pages := some [], socials := none, emergency := none, weatherConfig := none, customWidgets := none, isSafeMode := none }))).1.isSafeMode = some false ∧
      (getStoredData "2026-01-01T00:00:00.000Z" (some (Blob.valid { schoolName := some "Nova", theme := some { id := "t", name := "t", gradientStart := "", gradientEnd := "", accentColor := "", textColor := "", logoUrl := none }, announcements := none, events := none, eventCategories := none, tickerItems := none, liveCamUrls := none, liveCamUrl := none, homeLayout := none, homeWidgets := none, enableLiveCam := none, pageDuration := none, pages := some [], socials := none, emergency := none, weatherConfig := none, customWidgets := none, isSafeMode := none }))).2 = []) ∧
     ((getStoredData "2026-01-01T00:00:00.000Z" (some (Blob.valid { schoolName := some "Nova", theme := some { id := "t", name := "t", gradientStart := "", gradientEnd := "", accentColor := "", textColor := "", logoUrl := none }, announcements := none, events := none, eventCategories := none, tickerItems := none, liveCamUrls := none, liveCamUrl := none, homeLayout := none, homeWidgets := none, enableLiveCam := none, pageDuration := none, pages := none, socials := none, emergency := none, weatherConfig := none, customWidgets := none, isSafeMode := none }))).1 =
        toParsed { DEFAULT_DATA "2026-01-01T00:00:00.000Z" with isSafeMode := some true } ∧
      (getStoredData "2026-01-01T00:00:00.000Z" (some (Blob.valid { schoolName := some "Nova", theme := some { id := "t", name := "t", gradientStart := "", gradientEnd := "", accentColor := "", textColor := "", logoUrl := none }, announcements := none, events := none, eventCategories := none, tickerItems := none, liveCamUrls := none, liveCamUrl := none, homeLayout := none, homeWidgets := none, enableLiveCam := none, pageDuration := none, pages := none, socials := none, emergency := none, weatherConfig := none, customWidgets := none, isSafeMode := none }))).2.length = 1)) :=
  ⟨⟨rfl, rfl, by decide, rfl⟩,
   c9_empty_pages_asymmetry "2026-01-01T00:00:00.000Z" _ _ rfl rfl (by decide) rfl⟩

/-! ## Claim C3 — neither load nor cached fetch propagates a failure -/

/-- Classification of steps 2–5 of `safeFetch`: whatever the network did,
the result is the freshly fetched data, a stored entry's data, the truthy
fallback, or `null` — never an escaped error. -/
theorem safeFetchNet_classify {T : Type} (falsy : T → Bool)
    (cache : List (String × CacheBlob T)) (ck : String) (net : NetOutcome T)
    (fb : Option T) (now : Int) :
    (∃ d, net = NetOutcome.ok d ∧
       (safeFetch.safeFetchNet falsy cache ck net fb now).1 = some d) ∨
    (∃ d ts, alookup cache ck = some (CacheBlob.entry d ts) ∧
       (safeFetch.safeFetchNet falsy cache ck net fb now).1 = some d) ∨
    (∃ f, fb = some f ∧
       (safeFetch.safeFetchNet falsy cache ck net fb now).1 = some f) ∨
    (safeFetch.safeFetchNet falsy cache ck net fb now).1 = none := by
  cases net
  case ok d => exact Or.inl ⟨d, rfl, rfl⟩
  all_goals
    cases hl : alookup cache ck with
    | some cb =>
        cases cb with
        | entry d ts =>
            exact Or.inr (Or.inl ⟨d, ts, rfl,
              by simp [safeFetch.safeFetchNet, hl]⟩)
        | malformed =>
            cases fb with
            | some f =>
                by_cases hf : falsy f = true
                · exact Or.inr (Or.inr (Or.inr
                    (by simp [safeFetch.safeFetchNet, hl, hf])))
                · exact Or.inr (Or.inr (Or.inl ⟨f, rfl,
                    by simp [safeFetch.safeFetchNet, hl, hf]⟩))
            | none =>
                exact Or.inr (Or.inr (Or.inr
                  (by simp [safeFetch.safeFetchNet, hl])))
    | none =>
        cases fb with
        | some f =>
            by_cases hf : falsy f = true
            · exact Or.inr (Or.inr (Or.inr
                (by simp [safeFetch.safeFetchNet, hl, hf])))
            · exact Or.inr (Or.inr (Or.inl ⟨f, rfl,
                by simp [safeFetch.safeFetchNet, hl, hf]⟩))
        | none =>
            exact Or.inr (Or.inr (Or.inr
              (by simp [safeFetch.safeFetchNet, hl])))

/-- C3: loading never raises — for every stored blob the result is either
the migrated parse (flagged not-safe-mode), the plain default (key
absent), or the safe-mode default with one log entry — and the cached
fetch never raises: for every cache state, fallback, and network outcome
it returns fetched data, a stored entry's data (fresh or stale), the
truthy fallback, or `null`. -/
theorem c3_total_fallback_ladder :
    (∀ (nowISO : String) (b : Option Blob),
       (∃ p, b = some (Blob.valid p) ∧
          getStoredData nowISO b =
            ({ migrate nowISO p with isSafeMode := some false }, [])) ∨
       getStoredData nowISO b = (toParsed (DEFAULT_DATA nowISO), []) ∨
       ((getStoredData nowISO b).1 =
          toParsed { DEFAULT_DATA nowISO with isSafeMode := some true } ∧
        (getStoredData nowISO b).2.length = 1)) ∧
    (∀ (T : Type) (falsy : T → Bool) (cache : List (String × CacheBlob T))
       (key : String) (now ttl : Int) (net : NetOutcome T) (fb : Option T),
       (∃ d ts, alookup cache ("hardy_cache_" ++ key) =
            some (CacheBlob.entry d ts) ∧
          (safeFetch falsy cache key now ttl net fb).1 = some d) ∨
       (∃ d, net = NetOutcome.ok d ∧
          (safeFetch falsy cache key now ttl net fb).1 = some d) ∨
       (∃ f, fb = some f ∧
          (safeFetch falsy cache key now ttl net fb).1 = some f) ∨
       (safeFetch falsy cache key now ttl net fb).1 = none) := by
  constructor
  · intro nowISO b
    cases b with
    | none => exact Or.inr (Or.inl rfl)
    | some blob =>
        cases blob with
        | malformed =>
            exact Or.inr (Or.inr (by simp [getStoredData, parseAndValidate]))
        | nullBlob =>
            exact Or.inr (Or.inr (by simp [getStoredData, parseAndValidate]))
        | valid p =>
            by_cases hv : (p.pages.isSome && p.theme.isSome &&
                !(p.schoolName.getD "" == "")) = true
            · exact Or.inl ⟨p, rfl,
                by simp [getStoredData, parseAndValidate, hv]⟩
            · refine Or.inr (Or.inr ?_)
              rw [Bool.not_eq_true] at hv
              simp [getStoredData, parseAndValidate, hv]
  · intro T falsy cache key now ttl net fb
    have hnet := safeFetchNet_classify falsy cache ("hardy_cache_" ++ key)
      net fb now
    cases hl : alookup cache ("hardy_cache_" ++ key) with
    | some cb =>
        cases cb with
        | entry d ts =>
            by_cases hfr : now - ts < ttl * 1000
            · exact Or.inl ⟨d, ts, rfl, by simp [safeFetch, hl, hfr]⟩
            · have heq : (safeFetch falsy cache key now ttl net fb).1 =
                  (safeFetch.safeFetchNet falsy cache ("hardy_cache_" ++ key)
                    net fb now).1 := by
                simp [safeFetch, hl, hfr]
              rw [heq]
              rw [hl] at hnet
              rcases hnet with ⟨d2, h1, h2⟩ | ⟨d2, ts2, h1, h2⟩ |
                ⟨f, h1, h2⟩ | h
              · exact Or.inr (Or.inl ⟨d2, h1, h2⟩)
              · exact Or.inl ⟨d2, ts2, h1, h2⟩
              · exact Or.inr (Or.inr (Or.inl ⟨f, h1, h2⟩))
              · exact Or.inr (Or.inr (Or.inr h))
        | malformed =>
            have heq : (safeFetch falsy cache key now ttl net fb).1 =
                (safeFetch.safeFetchNet falsy cache ("hardy_cache_" ++ key)
                  net fb now).1 := by
              simp [safeFetch, hl]
            rw [heq]
            rw [hl] at hnet
            rcases hnet with ⟨d2, h1, h2⟩ | ⟨d2, ts2, h1, h2⟩ |
              ⟨f, h1, h2⟩ | h
            · exact Or.inr (Or.inl ⟨d2, h1, h2⟩)
            · exact Or.inl ⟨d2, ts2, h1, h2⟩
            · exact Or.inr (Or.inr (Or.inl ⟨f, h1, h2⟩))
            · exact Or.inr (Or.inr (Or.inr h))
    | none =>
        have heq : (safeFetch falsy cache key now ttl net fb).1 =
            (safeFetch.safeFetchNet falsy cache ("hardy_cache_" ++ key)
              net fb now).1 := by
          simp [safeFetch, hl]
        rw [heq]
        rw [hl] at hnet
        rcases hnet with ⟨d2, h1, h2⟩ | ⟨d2, ts2, h1, h2⟩ |
          ⟨f, h1, h2⟩ | h
        · exact Or.inr (Or.inl ⟨d2, h1, h2⟩)
        · exact Or.inl ⟨d2, ts2, h1, h2⟩
        · exact Or.inr (Or.inr (Or.inl ⟨f, h1, h2⟩))
        · exact Or.inr (Or.inr (Or.inr h))
